import Mathlib

/-!
Verification of the web3ref gateway protocol core (handlers.py, util.py).

Shallow embedding notes.  The source is written for Python 2 (it locally
imports `urllib.quote` and `StringIO`, both Python-2-only, and carries
"Python 2" compatibility comments); under Python 2 the `bytes` type *is*
`str`, so byte-string literals, the `_hoppish` table keys and `str`
operations all live in a single string type.  We model byte strings as
`List Nat` (one entry per byte), Python's per-request environment mapping
as an association list from `String` keys to dynamically typed values, and
dynamically typed response fields (`status`, header names/values) with a
small `PyObj` sum so that the `isinstance(..., bytes)` checks of
`finish_response` are meaningful.  Exceptions are modelled with
`Except String` / an `err : Option String` field; the transport's `_write`
is modelled as appending a chunk to a `writes : List Bytes` trace, and
`_flush` has no observable effect on that trace.  `time.time()` is an
external input: the rendered `format_date_time` result is passed in as
the configuration field `dateBytes`.
-/

/-- A Python 2 byte string: one `Nat` per byte. -/
abbrev Bytes := List Nat

/-- Byte-string literal helper for the ASCII literals appearing in the source. -/
def bs (s : String) : Bytes := s.data.map Char.toNat

/-- `CRLF = b'\r\n'` from util.py. -/
def CRLF : Bytes := bs "\r\n"

/-- Python `bytes.lower()` (ASCII). -/
def lowerB (b : Bytes) : Bytes :=
  b.map (fun c => if 65 ≤ c ∧ c ≤ 90 then c + 32 else c)

/-- Python `bytes.upper()` (ASCII). -/
def upperB (b : Bytes) : Bytes :=
  b.map (fun c => if 97 ≤ c ∧ c ≤ 122 then c - 32 else c)

/-- Python `b.split(sep)` for a one-byte separator (keeps empty pieces). -/
def splitB (sep : Nat) : Bytes → List Bytes
  | [] => [[]]
  | c :: rest =>
    let r := splitB sep rest
    if c = sep then [] :: r
    else
      match r with
      | [] => [[c]]
      | h :: t => (c :: h) :: t

/-- Python `sep.join(parts)`. -/
def joinB (sep : Bytes) : List Bytes → Bytes
  | [] => []
  | [x] => x
  | x :: y :: t => x ++ sep ++ joinB sep (y :: t)

/-- Whitespace bytes stripped by Python 2 `str.strip()`. -/
def isSpaceByte (c : Nat) : Bool :=
  decide (c = 32 ∨ c = 9 ∨ c = 10 ∨ c = 13 ∨ c = 11 ∨ c = 12)

/-- Python 2 `str.strip()`. -/
def pyStrip (s : Bytes) : Bytes :=
  ((s.dropWhile isSpaceByte).reverse.dropWhile isSpaceByte).reverse

def isDigitByte (c : Nat) : Bool := decide (48 ≤ c ∧ c ≤ 57)

def digitsValAux : Bytes → Nat → Option Nat
  | [], acc => some acc
  | c :: rest, acc =>
    if isDigitByte c then digitsValAux rest (acc * 10 + (c - 48)) else none

/-- Decimal value of a nonempty all-digit byte string, else `none`. -/
def digitsVal : Bytes → Option Nat
  | [] => none
  | c :: rest => digitsValAux (c :: rest) 0

/-- Python 2 `int(s)` on a byte string: optional surrounding whitespace,
optional sign directly attached to a nonempty digit run.  `none` models a
raised `ValueError`. -/
def pyInt (s : Bytes) : Option Int :=
  match pyStrip s with
  | [] => none
  | c :: rest =>
    if c = 43 then (digitsVal rest).map (fun n => (n : Int))
    else if c = 45 then (digitsVal rest).map (fun n => -(n : Int))
    else (digitsVal (c :: rest)).map (fun n => (n : Int))

/-- A dynamically typed Python value stored in the request environment. -/
inductive EnvVal
  | bytes (b : Bytes)
  | version (a b : Nat)
  | boolV (b : Bool)
  | stream (id : Nat)
deriving DecidableEq, Repr

/-- Python truthiness of an environment value. -/
def EnvVal.truthy : EnvVal → Bool
  | .bytes b => decide (b ≠ [])
  | .version _ _ => true
  | .boolV b => b
  | .stream _ => true

/-- The request environment: a mapping with unique keys, modelled as an
association list (first binding of a key wins on lookup, `envSet` replaces
in place like a Python dict assignment). -/
abbrev Env := List (String × EnvVal)

def envGet : Env → String → Option EnvVal
  | [], _ => none
  | (k, v) :: rest, key => if k = key then some v else envGet rest key

def envSet : Env → String → EnvVal → Env
  | [], key, val => [(key, val)]
  | (k, v) :: rest, key, val =>
    if k = key then (k, val) :: rest else (k, v) :: envSet rest key val

/-- Python `dict.setdefault`. -/
def envSetdefault (e : Env) (k : String) (v : EnvVal) : Env :=
  match envGet e k with
  | some _ => e
  | none => envSet e k v

/-- Python `d.update(other)`. -/
def envUpdate (e : Env) (overrides : Env) : Env :=
  overrides.foldl (fun acc kv => envSet acc kv.1 kv.2) e

/-- `environ[k]` expecting a byte string: `KeyError` when absent,
`TypeError` when the stored value is not bytes and byte operations follow. -/
def getBytesStrict (environ : Env) (k : String) : Except String Bytes :=
  match envGet environ k with
  | none => Except.error ("KeyError: " ++ k)
  | some (EnvVal.bytes b) => Except.ok b
  | some _ => Except.error "TypeError"

/-! ## util.py -/

/-- `guess_scheme` (util.py lines 12-18): https exactly when the `HTTPS`
entry equals `b'yes'`, `b'on'` or `b'1'`. -/
def guess_scheme (environ : Env) : Bytes :=
  if envGet environ "HTTPS" ∈
      [some (EnvVal.bytes (bs "yes")), some (EnvVal.bytes (bs "on")),
       some (EnvVal.bytes (bs "1"))] then
    bs "https"
  else
    bs "http"

/-- `_hoppish` (util.py lines 132-136); under Python 2 the `str` keys are
byte strings. -/
def hop_by_hop_names : List Bytes :=
  [bs "connection", bs "keep-alive", bs "proxy-authenticate",
   bs "proxy-authorization", bs "te", bs "trailers",
   bs "transfer-encoding", bs "upgrade"]

/-- `is_hop_by_hop` (util.py lines 138-140). -/
def is_hop_by_hop (header_name : Bytes) : Bool :=
  decide (lowerB header_name ∈ hop_by_hop_names)

def hexDigit (d : Nat) : Nat := if d < 10 then 48 + d else 55 + d

/-- A byte that Python 2 `urllib.quote(_, safe='/')` leaves unescaped:
letters, digits, `_`, `.`, `-`, and the default-safe `/`. -/
def quoteSafe (c : Nat) : Bool :=
  decide ((65 ≤ c ∧ c ≤ 90) ∨ (97 ≤ c ∧ c ≤ 122) ∨ (48 ≤ c ∧ c ≤ 57) ∨
    c = 95 ∨ c = 46 ∨ c = 45 ∨ c = 47)

/-- Python 2 `urllib.quote(s)` with the default `safe='/'`. -/
def pyQuote : Bytes → Bytes
  | [] => []
  | c :: rest =>
    (if quoteSafe c then [c] else [37, hexDigit (c / 16), hexDigit (c % 16)])
      ++ pyQuote rest

/-- `application_uri` (util.py lines 20-38).  Nota bene: it reads the
scheme from key `'wsgi.url_scheme'`, a leftover from the wsgiref ancestry
of this repository. -/
def application_uri (environ : Env) : Except String Bytes :=
  match envGet environ "wsgi.url_scheme" with
  | none => Except.error "KeyError: wsgi.url_scheme"
  | some (EnvVal.bytes scheme) =>
    let url0 := scheme ++ bs "://"
    let serverPart : Except String Bytes :=
      match getBytesStrict environ "SERVER_NAME" with
      | Except.error e => Except.error e
      | Except.ok name =>
        match getBytesStrict environ "SERVER_PORT" with
        | Except.error e => Except.error e
        | Except.ok port =>
          if scheme = bs "https" then
            if port ≠ bs "443" then Except.ok (name ++ bs ":" ++ port)
            else Except.ok name
          else
            if port ≠ bs "80" then Except.ok (name ++ bs ":" ++ port)
            else Except.ok name
    let hostPart : Except String Bytes :=
      match envGet environ "HTTP_HOST" with
      | some (EnvVal.bytes h) => if h ≠ [] then Except.ok h else serverPart
      | some v => if v.truthy then Except.error "TypeError" else serverPart
      | none => serverPart
    match hostPart with
    | Except.error e => Except.error e
    | Except.ok host =>
      let scriptRaw : Except String Bytes :=
        match envGet environ "SCRIPT_NAME" with
        | some (EnvVal.bytes sn) =>
          if sn ≠ [] then Except.ok sn else Except.ok (bs "/")
        | some v =>
          if v.truthy then Except.error "TypeError" else Except.ok (bs "/")
        | none => Except.ok (bs "/")
      match scriptRaw with
      | Except.error e => Except.error e
      | Except.ok sn => Except.ok (url0 ++ host ++ pyQuote sn)
  | some _ => Except.error "TypeError"

/-- Component-collapsing loop of Python 2 `posixpath.normpath`. -/
def normComps (initialSlashes : Nat) : List Bytes → List Bytes → List Bytes
  | acc, [] => acc
  | acc, comp :: rest =>
    if comp = [] ∨ comp = bs "." then normComps initialSlashes acc rest
    else if comp ≠ bs ".." ∨ (initialSlashes = 0 ∧ acc = []) ∨
        (acc ≠ [] ∧ acc.getLast? = some (bs "..")) then
      normComps initialSlashes (acc ++ [comp]) rest
    else if acc ≠ [] then normComps initialSlashes acc.dropLast rest
    else normComps initialSlashes acc rest

/-- Python 2 `posixpath.normpath` on byte strings. -/
def normpath (path : Bytes) : Bytes :=
  if path = [] then bs "."
  else
    let initialSlashes : Nat :=
      if (bs "/").isPrefixOf path then
        if (bs "//").isPrefixOf path ∧ ¬ (bs "///").isPrefixOf path then 2
        else 1
      else 0
    let comps := splitB 47 path
    let p := joinB (bs "/") (normComps initialSlashes [] comps)
    let p2 := List.replicate initialSlashes 47 ++ p
    if p2 = [] then bs "." else p2

/-- `shift_path_info` (util.py lines 53-92).  Returns the shifted segment
(`none` standing for Python's `None`, the no-segment result) together with
the mutated environment; `Except.error` models a raised exception. -/
def shift_path_info (environ : Env) : Except String (Option Bytes × Env) :=
  let pathInfoV : Except String Bytes :=
    match envGet environ "PATH_INFO" with
    | some (EnvVal.bytes b) => Except.ok b
    | none => Except.ok []
    | some _ => Except.error "TypeError"
  match pathInfoV with
  | Except.error e => Except.error e
  | Except.ok pathInfo =>
    if pathInfo = [] then Except.ok (none, environ)
    else
      match splitB 47 pathInfo with
      | [] => Except.error "IndexError: list index out of range"
      | p0 :: ps =>
        match ps with
        | [] => Except.error "IndexError: list index out of range"
        | q :: qs =>
          let middle := (q :: qs).dropLast
          let plast := (q :: qs).getLast (by simp)
          let fm := middle.filter (fun p => p ≠ [] ∧ p ≠ bs ".")
          let nameRem : Bytes × List Bytes :=
            match fm with
            | n :: fmrest => (n, p0 :: (fmrest ++ [plast]))
            | [] => (plast, [p0])
          let name := nameRem.1
          let remaining := nameRem.2
          let scriptNameV : Except String Bytes :=
            match envGet environ "SCRIPT_NAME" with
            | some (EnvVal.bytes b) => Except.ok b
            | none => Except.ok []
            | some _ => Except.error "TypeError"
          match scriptNameV with
          | Except.error e => Except.error e
          | Except.ok scriptName0 =>
            let s1 := normpath (scriptName0 ++ bs "/" ++ name)
            let s2 := if s1.getLast? = some 47 then s1.dropLast else s1
            let s3 :=
              if name = [] ∧ ¬ (s2.getLast? = some 47) then s2 ++ bs "/"
              else s2
            let env1 := envSet environ "SCRIPT_NAME" (EnvVal.bytes s3)
            let env2 := envSet env1 "PATH_INFO"
              (EnvVal.bytes (joinB (bs "/") remaining))
            let ret : Option Bytes := if name = bs "." then none else some name
            Except.ok (ret, env2)


/-! ## handlers.py : response validation and transmission -/

/-- A dynamically typed value returned by the application in a status or
header position: either a byte string or some non-bytes object. -/
inductive PyObj
  | bytes (b : Bytes)
  | other (tag : String)
deriving DecidableEq, Repr

def PyObj.asB : PyObj → Bytes
  | .bytes b => b
  | .other _ => []

/-- One item produced by iterating the response body: a bytes chunk, or an
exception raised by the (lazy) iterable. -/
abbrev BodyItem := Except String Bytes

/-- The application's response, as `finish_response` receives it in
`self.result`: a `(status, headers, body)` triple, plus the flag telling
whether the result object itself is callable (`hasattr(result,'__call__')`). -/
structure Web3Result where
  callable : Bool
  status : PyObj
  headers : List (PyObj × PyObj)
  body : List BodyItem
deriving Repr

/-- Handler configuration: the `BaseHandler` class attributes, with their
source default values.  `server_software = []` stands for `None`/unset
(both are falsy where the attribute is tested).  `dateBytes` is the
`format_date_time(time.time())` rendering at the moment `send_preamble`
runs: an external input of the model. -/
structure Config where
  origin_server : Bool := true
  http_version : Bytes := bs "1.0"
  server_software : Bytes := []
  os_environ : Env := []
  traceback_limit : Option Nat := none
  error_status : PyObj := PyObj.bytes (bs "500 Dude, this is whack!")
  error_headers : List (PyObj × PyObj) :=
    [(PyObj.bytes (bs "Content-Type"), PyObj.bytes (bs "text/plain"))]
  error_body : List BodyItem :=
    [Except.ok (bs "A server error occurred. Contact the administrator.")]
  web3_multithread : Bool := true
  web3_multiprocess : Bool := true
  web3_run_once : Bool := false
  web3_async : Bool := false
  dateBytes : Bytes := []

/-- Per-request mutable transmission state of the handler.
`sentAfterBody` is model bookkeeping only: it snapshots `bytes_sent` right
after the body loop, since `close()` then resets the live counter. -/
structure TxState where
  status : Option Bytes := none
  headersSent : Bool := false
  bytesSent : Nat := 0
  writes : List Bytes := []
  sentAfterBody : Option Nat := none
deriving DecidableEq, Repr

def initState : TxState := {}

/-- Outcome of a call that may raise: `err = some e` models an exception
propagating out, with `st` the handler state left behind. -/
structure FRout where
  err : Option String
  st : TxState
deriving DecidableEq, Repr

/-- Status validation prefix of `finish_response` (handlers.py lines
123-137).  The fourth check additionally drops into `pdb.set_trace()` in
the source before raising; the debugger writes nothing to the transport,
so it has no observable effect on the modelled trace. -/
def statusCheck : PyObj → Option String
  | PyObj.other _ => some "AssertionError: Status must be bytes"
  | PyObj.bytes s =>
    if s.length < 4 then some "AssertionError: Status must be at least 4 characters"
    else
      match pyInt (s.take 3) with
      | none => some "ValueError: invalid literal for int()"
      | some n =>
        if n = 0 then some "AssertionError: Status message must begin w/3-digit code"
        else if (s.drop 3).take 1 ≠ bs " " then
          some "AssertionError: Status message must have a space after code"
        else none

/-- Header-loop validation of `finish_response` (handlers.py lines 139-148),
checking the pairs in input order. -/
def headersCheck : List (PyObj × PyObj) → Option String
  | [] => none
  | (n, v) :: rest =>
    match n with
    | PyObj.other _ => some "AssertionError: Header names must be bytes"
    | PyObj.bytes nb =>
      match v with
      | PyObj.other _ => some "AssertionError: Header values must be bytes"
      | PyObj.bytes _ =>
        if is_hop_by_hop nb then some "AssertionError: Hop-by-hop headers not allowed"
        else headersCheck rest

/-- The full validation prefix of `finish_response` (handlers.py lines
119-148): callable rejection, then status checks, then the header loop. -/
def validate (result : Web3Result) : Option String :=
  if result.callable then
    some "AssertionError: This server does not support asynchronous responses"
  else
    match statusCheck result.status with
    | some e => some e
    | none => headersCheck result.headers

/-- `has_header` (handlers.py lines 165-169), on the validated header list. -/
def has_header (headers : List (Bytes × Bytes)) (name : Bytes) : Bool :=
  headers.any (fun kv => lowerB kv.1 = lowerB name)

/-- `client_is_modern` (handlers.py lines 220-222). -/
def client_is_modern (env : Env) : Except String Bool :=
  match getBytesStrict env "SERVER_PROTOCOL" with
  | Except.error e => Except.error e
  | Except.ok p => Except.ok (decide (upperB p ≠ bs "HTTP/0.9"))

/-- One transmitted header line, `k + b': ' + v + CRLF`
(handlers.py line 217). -/
def headerLine (kv : Bytes × Bytes) : Bytes := kv.1 ++ bs ": " ++ kv.2 ++ CRLF

/-- `send_preamble` (handlers.py lines 171-184), as the list of chunks it
passes to `_write`. -/
def send_preamble (cfg : Config) (env : Env) (status : Bytes)
    (headers : List (Bytes × Bytes)) : Except String (List Bytes) :=
  if cfg.origin_server then
    match client_is_modern env with
    | Except.error e => Except.error e
    | Except.ok true =>
      let l1 := bs "HTTP/" ++ cfg.http_version ++ bs " " ++ status ++ CRLF
      let dateLines :=
        if has_header headers (bs "Date") then []
        else [bs "Date: " ++ cfg.dateBytes ++ CRLF]
      let serverLines :=
        if cfg.server_software ≠ [] ∧ ¬ has_header headers (bs "Server") then
          [bs "Server: " ++ cfg.server_software ++ CRLF]
        else []
      Except.ok ([l1] ++ dateLines ++ serverLines)
    | Except.ok false => Except.ok []
  else
    Except.ok [bs "Status: " ++ status ++ CRLF]

/-- The chunks `send_headers` (handlers.py lines 211-218) passes to
`_write` after setting `headers_sent`; the caller sets the flag.  The
`not origin or modern` test short-circuits, so a non-origin handler never
consults `SERVER_PROTOCOL`. -/
def send_headers_writes (cfg : Config) (env : Env) (status : Bytes)
    (headers : List (Bytes × Bytes)) : Except String (List Bytes) :=
  if ¬ cfg.origin_server then
    match send_preamble cfg env status headers with
    | Except.error e => Except.error e
    | Except.ok pre => Except.ok (pre ++ headers.map headerLine ++ [CRLF])
  else
    match client_is_modern env with
    | Except.error e => Except.error e
    | Except.ok true =>
      match send_preamble cfg env status headers with
      | Except.error e => Except.error e
      | Except.ok pre => Except.ok (pre ++ headers.map headerLine ++ [CRLF])
    | Except.ok false => Except.ok []

/-- Truthiness of `self.status` as tested by `write()`. -/
def statusTruthy (st : TxState) : Bool :=
  match st.status with
  | some s => decide (s ≠ [])
  | none => false

/-- The `for data in body: self.write(data)` loop of `finish_response`
(lines 156-157), with `write` from lines 186-197: each chunk is guarded by
the status/headers-sent assertions, counted into `bytes_sent`, written and
flushed.  A `BodyItem` error models the lazy iterable raising mid-stream. -/
def body_loop (st : TxState) : List BodyItem → FRout
  | [] => { err := none, st := st }
  | Except.error e :: _ => { err := some e, st := st }
  | Except.ok data :: rest =>
    if ¬ statusTruthy st then
      { err := some "AssertionError: write() before status set", st := st }
    else if ¬ st.headersSent then
      { err := some "AssertionError: write() before headers set", st := st }
    else
      body_loop
        { st with
          bytesSent := st.bytesSent + data.length,
          writes := st.writes ++ [data] } rest

/-- `close` (handlers.py lines 199-209): resets the per-request state.
(The model keeps the `sentAfterBody` snapshot, which is bookkeeping and
not part of the handler's live state.) -/
def close_state (st : TxState) : TxState :=
  { st with status := none, bytesSent := 0, headersSent := false }

/-- `finish_response` (handlers.py lines 111-159): validate, store the
triple, send headers (setting `headers_sent` before any write can fail),
stream the body, then close. -/
def finish_response (cfg : Config) (env : Env) (result : Web3Result)
    (st0 : TxState) : FRout :=
  match validate result with
  | some e => { err := some e, st := st0 }
  | none =>
    let status := result.status.asB
    let headers := result.headers.map (fun p => (p.1.asB, p.2.asB))
    let st1 := { st0 with status := some status, headersSent := true }
    match send_headers_writes cfg env status headers with
    | Except.error e => { err := some e, st := st1 }
    | Except.ok ws =>
      let st2 := { st1 with writes := st1.writes ++ ws }
      let r := body_loop st2 result.body
      match r.err with
      | some _ => r
      | none =>
        { err := none,
          st := close_state { r.st with sentAfterBody := some r.st.bytesSent } }

/-! ## handlers.py : environment building, error recovery, run -/

/-- Events observable on the request's error stream. -/
inductive ErrEvent
  | logged (exn : String) (tb_limit : Option Nat)
  | flushed
deriving DecidableEq, Repr

/-- `log_exception` (handlers.py lines 224-237): `print_exception` writes
the exception type, message and traceback (bounded by `traceback_limit`)
to `get_stderr()`, which is then flushed. -/
def log_exception (cfg : Config) (exn : String) : List ErrEvent :=
  [ErrEvent.logged exn cfg.traceback_limit, ErrEvent.flushed]

/-- `error_output` (handlers.py lines 246-259): the configured fallback
triple; a plain tuple, hence not callable. -/
def error_result (cfg : Config) : Web3Result :=
  { callable := false
    status := cfg.error_status
    headers := cfg.error_headers
    body := cfg.error_body }

/-- `setup_environ` (handlers.py lines 90-109), with `add_cgi_vars` as in
`SimpleHandler` (`self.environ.update(self.base_env)`).  Returns the
(possibly partially built) environment and the raised exception, if any:
the only in-scope failure is the unguarded `env['SCRIPT_NAME']` read. -/
def setup_environ (cfg : Config) (base : Env) : Env × Option String :=
  let env0 := envUpdate cfg.os_environ base
  let env1 := envSet env0 "web3.version" (EnvVal.version 1 0)
  let env2 := envSet env1 "web3.url_scheme" (EnvVal.bytes (guess_scheme env1))
  let env3 := envSet env2 "web3.input" (EnvVal.stream 0)
  let env4 := envSet env3 "web3.errors" (EnvVal.stream 1)
  let env5 := envSet env4 "web3.multithread" (EnvVal.boolV cfg.web3_multithread)
  let env6 := envSet env5 "web3.run_once" (EnvVal.boolV cfg.web3_run_once)
  let env7 := envSet env6 "web3.multiprocess" (EnvVal.boolV cfg.web3_multiprocess)
  let env8 :=
    match envGet env7 "RAW_PATH_INFO" with
    | some v => envSet env7 "web3.path_info" v
    | none => env7
  match envGet env8 "SCRIPT_NAME" with
  | none => (env8, some "KeyError: SCRIPT_NAME")
  | some sv =>
    let env9 := envSet env8 "web3.script_name" sv
    let env10 := envSet env9 "web3.async" (EnvVal.boolV cfg.web3_async)
    let env11 :=
      if cfg.origin_server ∧ cfg.server_software ≠ [] then
        envSetdefault env10 "SERVER_SOFTWARE" (EnvVal.bytes cfg.server_software)
      else env10
    (env11, none)

/-- The application's behaviour when invoked: return a result or raise. -/
inductive AppResult
  | raises (e : String)
  | returns (r : Web3Result)

abbrev App := Env → AppResult

/-- Observable outcome of `run`: the built environment, the transport
write trace, the error-stream trace, and the exception re-raised to the
surrounding server (if any). -/
structure RunOut where
  env : Env
  writes : List Bytes
  errlog : List ErrEvent
  raised : Option String
deriving Repr

/-- The `try` body of `run` (handlers.py lines 78-81): build the
environment, invoke the application, finish the response. -/
def pipeline_result (cfg : Config) (env : Env) (setupErr : Option String)
    (app : App) : FRout :=
  match setupErr with
  | some e => { err := some e, st := initState }
  | none =>
    match app env with
    | AppResult.raises e => { err := some e, st := initState }
    | AppResult.returns r => finish_response cfg env r initState

/-- `run` (handlers.py lines 76-88) together with `handle_error` (lines
239-244): on a pipeline exception, log it; if headers were not yet sent,
transmit the fallback `error_output` triple; re-raise only if that error
handling itself raises (after `close`). -/
def run (cfg : Config) (base : Env) (app : App) : RunOut :=
  let setup := setup_environ cfg base
  let env := setup.1
  let pr := pipeline_result cfg env setup.2 app
  match pr.err with
  | none => { env := env, writes := pr.st.writes, errlog := [], raised := none }
  | some e =>
    let lg := log_exception cfg e
    if pr.st.headersSent then
      { env := env, writes := pr.st.writes, errlog := lg, raised := none }
    else
      let fr := finish_response cfg env (error_result cfg) pr.st
      match fr.err with
      | none => { env := env, writes := fr.st.writes, errlog := lg, raised := none }
      | some e2 =>
        { env := env, writes := fr.st.writes, errlog := lg, raised := some e2 }

/-! ## Decidability instances and specification-level predicates -/

deriving instance DecidableEq for Except
deriving instance DecidableEq for Web3Result
deriving instance DecidableEq for RunOut

/-- The shape the claims call a valid status: bytes of the form
three-digit code, not `000`, followed by one space (then anything). -/
def valid_status_shape (b : Bytes) : Prop :=
  4 ≤ b.length ∧
  isDigitByte (b.getD 0 0) = true ∧ isDigitByte (b.getD 1 0) = true ∧
  isDigitByte (b.getD 2 0) = true ∧ b.getD 3 0 = 32 ∧
  ¬ (b.getD 0 0 = 48 ∧ b.getD 1 0 = 48 ∧ b.getD 2 0 = 48)

/-- A response triple that is valid in the claims' sense: not callable,
status of the valid shape, headers a list of byte pairs none of whose
names is hop-by-hop, body a finite sequence of bytes chunks (none of
which raises). -/
def valid_result (result : Web3Result) (statusB : Bytes)
    (headers : List (Bytes × Bytes)) (chunks : List Bytes) : Prop :=
  result.callable = false ∧
  result.status = PyObj.bytes statusB ∧
  valid_status_shape statusB ∧
  result.headers = headers.map (fun p => (PyObj.bytes p.1, PyObj.bytes p.2)) ∧
  (∀ p ∈ headers, is_hop_by_hop p.1 = false) ∧
  result.body = chunks.map Except.ok

instance (b : Bytes) : Decidable (valid_status_shape b) := by
  unfold valid_status_shape
  infer_instance

instance (result : Web3Result) (statusB : Bytes)
    (headers : List (Bytes × Bytes)) (chunks : List Bytes) :
    Decidable (valid_result result statusB headers chunks) := by
  unfold valid_result
  infer_instance

/-- A status value that is malformed in the claims' sense: not byte data;
or too short; or the first three characters do not parse (per Python
`int`) to a non-zero number; or the fourth character is not one space. -/
def status_malformed (s : PyObj) : Prop :=
  (∃ t, s = PyObj.other t) ∨
  (∃ b, s = PyObj.bytes b ∧
    (b.length < 4 ∨ pyInt (b.take 3) = none ∨ pyInt (b.take 3) = some 0 ∨
     (b.drop 3).take 1 ≠ bs " "))

/-! ## Concrete instances used by counterexamples and witnesses -/

/-- A base environment as the transport collaborator supplies it. -/
def baseEnv0 : Env :=
  [("SCRIPT_NAME", EnvVal.bytes (bs "")),
   ("HTTP_HOST", EnvVal.bytes (bs "example.com")),
   ("SERVER_PROTOCOL", EnvVal.bytes (bs "HTTP/1.0")),
   ("PATH_INFO", EnvVal.bytes (bs "/"))]

/-- Default handler configuration with a fixed date rendering. -/
def cfg0 : Config := { dateBytes := bs "Sun, 12 Oct 2026 00:00:00 GMT" }

/-- Non-origin (CGI-style) handler configuration. -/
def cfgCgi : Config := { origin_server := false }

/-- An environment whose client declared the legacy 0.9 protocol
(in lower case, to exercise the case-insensitive comparison). -/
def env09 : Env :=
  [("SCRIPT_NAME", EnvVal.bytes (bs "")),
   ("SERVER_PROTOCOL", EnvVal.bytes (bs "http/0.9"))]

/-- A well-formed 200 response with one header and body `b"Hello"`. -/
def r200 : Web3Result :=
  { callable := false
    status := PyObj.bytes (bs "200 OK")
    headers := [(PyObj.bytes (bs "Content-Length"), PyObj.bytes (bs "5"))]
    body := [Except.ok (bs "Hello")] }

/-- Like `r200` but the body iterable raises after its first chunk. -/
def rBoom : Web3Result :=
  { callable := false
    status := PyObj.bytes (bs "200 OK")
    headers := [(PyObj.bytes (bs "Content-Length"), PyObj.bytes (bs "5"))]
    body := [Except.ok (bs "Hello"), Except.error "boom"] }

/-- An application returning `rBoom`. -/
def appBoom : App := fun _ => AppResult.returns rBoom

/-- An application that raises before producing a response. -/
def appRaise : App := fun _ => AppResult.raises "kaput"

/-- A response carrying a hop-by-hop header in mixed case. -/
def rHop : Web3Result :=
  { callable := false
    status := PyObj.bytes (bs "200 OK")
    headers := [(PyObj.bytes (bs "Content-Length"), PyObj.bytes (bs "5")),
                (PyObj.bytes (bs "Connection"), PyObj.bytes (bs "close"))]
    body := [Except.ok (bs "Hello")] }

/-- A response whose status is too short. -/
def rBadStatus : Web3Result :=
  { callable := false
    status := PyObj.bytes (bs "abc")
    headers := []
    body := [Except.ok (bs "Hello")] }

/-- The environment produced by the Environment Builder for `baseEnv0`. -/
def builtEnv0 : Env := (setup_environ cfg0 baseEnv0).1

/-- A base environment whose transport HTTPS flag is `b"ON"`: present and
truthy in Python's sense, but not one of `b'yes'`/`b'on'`/`b'1'`. -/
def baseEnvHttpsOn : Env :=
  [("SCRIPT_NAME", EnvVal.bytes (bs "")),
   ("HTTPS", EnvVal.bytes (bs "ON"))]

/-- Environment for the path-shift scenario, `PATH_INFO = b"/a/b/c"`. -/
def envShift0 : Env :=
  [("PATH_INFO", EnvVal.bytes (bs "/a/b/c")),
   ("SCRIPT_NAME", EnvVal.bytes (bs ""))]

def envShift1 : Env :=
  [("PATH_INFO", EnvVal.bytes (bs "/b/c")),
   ("SCRIPT_NAME", EnvVal.bytes (bs "/a"))]

def envShift2 : Env :=
  [("PATH_INFO", EnvVal.bytes (bs "/c")),
   ("SCRIPT_NAME", EnvVal.bytes (bs "/a/b"))]

def envShift3 : Env :=
  [("PATH_INFO", EnvVal.bytes (bs "")),
   ("SCRIPT_NAME", EnvVal.bytes (bs "/a/b/c"))]

/-- Environment for the lone-slash path-shift scenario. -/
def envSlash : Env :=
  [("PATH_INFO", EnvVal.bytes (bs "/")),
   ("SCRIPT_NAME", EnvVal.bytes (bs ""))]

/-! ## Helper lemmas -/

lemma statusCheck_none_of_valid (b : Bytes) (h : valid_status_shape b) :
    statusCheck (PyObj.bytes b) = none := by
  obtain ⟨hlen, h1, h2, h3, h4, h5⟩ := h
  rcases b with _ | ⟨d1, b⟩; · simp at hlen
  rcases b with _ | ⟨d2, b⟩; · simp at hlen
  rcases b with _ | ⟨d3, b⟩; · simp at hlen
  rcases b with _ | ⟨d4, rest⟩; · simp at hlen
  simp only [List.getD_cons_zero, List.getD_cons_succ] at h1 h2 h3 h4 h5
  subst h4
  have hb1 : 48 ≤ d1 ∧ d1 ≤ 57 := by simpa [isDigitByte] using h1
  have hb2 : 48 ≤ d2 ∧ d2 ≤ 57 := by simpa [isDigitByte] using h2
  have hb3 : 48 ≤ d3 ∧ d3 ≤ 57 := by simpa [isDigitByte] using h3
  have hs1 : isSpaceByte d1 = false := by simp [isSpaceByte]; omega
  have hs3 : isSpaceByte d3 = false := by simp [isSpaceByte]; omega
  have hd1 : isDigitByte d1 = true := h1
  have hd2 : isDigitByte d2 = true := h2
  have hd3 : isDigitByte d3 = true := h3
  have htake : (d1 :: d2 :: d3 :: 32 :: rest).take 3 = [d1, d2, d3] := rfl
  have hstrip : pyStrip [d1, d2, d3] = [d1, d2, d3] := by
    simp [pyStrip, List.dropWhile, hs1, hs3]
  have hval : digitsVal [d1, d2, d3] =
      some (((d1 - 48) * 10 + (d2 - 48)) * 10 + (d3 - 48)) := by
    simp [digitsVal, digitsValAux, hd1, hd2, hd3]
  have hne0 : ((d1 - 48) * 10 + (d2 - 48)) * 10 + (d3 - 48) ≠ 0 := by omega
  have hint : pyInt ((d1 :: d2 :: d3 :: 32 :: rest).take 3) =
      some ((((d1 - 48) * 10 + (d2 - 48)) * 10 + (d3 - 48) : Nat) : Int) := by
    rw [htake]
    simp only [pyInt, hstrip]
    rw [if_neg (by omega), if_neg (by omega), hval]
    rfl
  simp only [statusCheck, hint]
  rw [if_neg (by omega)]
  rw [if_neg (by exact_mod_cast hne0)]
  rw [if_neg (by simp [bs])]

lemma headersCheck_none (headers : List (Bytes × Bytes))
    (h : ∀ p ∈ headers, is_hop_by_hop p.1 = false) :
    headersCheck (headers.map (fun p => (PyObj.bytes p.1, PyObj.bytes p.2))) =
      none := by
  induction headers with
  | nil => rfl
  | cons p rest ih =>
    have hp := h p (List.mem_cons_self p rest)
    simp only [List.map_cons, headersCheck, hp, if_false, Bool.false_eq_true,
      ite_false]
    exact ih (fun q hq => h q (List.mem_cons_of_mem _ hq))

lemma headersCheck_isSome_of_hop (headers : List (PyObj × PyObj))
    (h : ∃ p ∈ headers, ∃ nb, p.1 = PyObj.bytes nb ∧ is_hop_by_hop nb = true) :
    (headersCheck headers).isSome = true := by
  induction headers with
  | nil => simp at h
  | cons q rest ih =>
    obtain ⟨p, hp, nb, hnb, hhop⟩ := h
    rcases List.mem_cons.mp hp with rfl | hmem
    · rcases p with ⟨n, v⟩
      simp only at hnb
      subst hnb
      rcases v with vb | vt
      · simp [headersCheck, hhop]
      · simp [headersCheck]
    · rcases q with ⟨n, v⟩
      rcases n with nb' | nt
      · rcases v with vb | vt
        · by_cases hq : is_hop_by_hop nb' = true
          · simp [headersCheck, hq]
          · simp only [headersCheck, hq, Bool.false_eq_true, ite_false]
            exact ih ⟨p, hmem, nb, hnb, hhop⟩
        · simp [headersCheck]
      · simp [headersCheck]

lemma validate_none_of_valid (result : Web3Result) (statusB : Bytes)
    (headers : List (Bytes × Bytes)) (chunks : List Bytes)
    (hv : valid_result result statusB headers chunks) :
    validate result = none := by
  obtain ⟨hc, hstat, hshape, hhead, hhop, _⟩ := hv
  simp only [validate, hc, Bool.false_eq_true, ite_false, hstat,
    statusCheck_none_of_valid statusB hshape, hhead,
    headersCheck_none headers hhop]

lemma body_loop_map_ok (chunks : List Bytes) (st : TxState)
    (hh : st.headersSent = true) (hst : statusTruthy st = true) :
    body_loop st (chunks.map Except.ok) =
      { err := none,
        st := { st with
                bytesSent := st.bytesSent + (chunks.map List.length).sum,
                writes := st.writes ++ chunks } } := by
  induction chunks generalizing st with
  | nil => simp [body_loop]
  | cons a rest ih =>
    simp only [List.map_cons, body_loop, hst, hh, Bool.not_eq_true,
      not_true_eq_false, Bool.false_eq_true, ite_false]
    rw [ih { status := st.status, headersSent := true,
             bytesSent := st.bytesSent + a.length,
             writes := st.writes ++ [a],
             sentAfterBody := st.sentAfterBody } rfl hst]
    simp [List.sum_cons, List.append_assoc, Nat.add_assoc]

lemma status_ne_nil_of_valid (statusB : Bytes) (h : valid_status_shape statusB) :
    statusB ≠ [] := by
  intro hnil
  rw [hnil] at h
  simp [valid_status_shape] at h

lemma asB_map_headers (headers : List (Bytes × Bytes)) :
    (headers.map (fun p => (PyObj.bytes p.1, PyObj.bytes p.2))).map
      (fun p => (p.1.asB, p.2.asB)) = headers := by
  induction headers with
  | nil => rfl
  | cons q t ih =>
    simp only [List.map_cons, ih]
    rfl

lemma finish_response_ok_of_sendws (cfg : Config) (env : Env)
    (result : Web3Result) (statusB : Bytes) (headers : List (Bytes × Bytes))
    (chunks : List Bytes) (ws : List Bytes)
    (hv : valid_result result statusB headers chunks)
    (hws : send_headers_writes cfg env statusB headers = Except.ok ws) :
    finish_response cfg env result initState =
      { err := none,
        st := { status := none, headersSent := false, bytesSent := 0,
                writes := ws ++ chunks,
                sentAfterBody := some (chunks.map List.length).sum } } := by
  have hval : validate result = none :=
    validate_none_of_valid result statusB headers chunks hv
  obtain ⟨hc, hstat, hshape, hhead, hhop, hbody⟩ := hv
  have hsB : result.status.asB = statusB := by rw [hstat]; rfl
  have hmap : result.headers.map (fun p => (p.1.asB, p.2.asB)) = headers := by
    rw [hhead, asB_map_headers]
  have hne : statusB ≠ [] := status_ne_nil_of_valid statusB hshape
  simp only [finish_response, hval, hsB, hmap, hws, hbody]
  rw [body_loop_map_ok chunks
      { status := some statusB, headersSent := true,
        bytesSent := initState.bytesSent,
        writes := initState.writes ++ ws,
        sentAfterBody := initState.sentAfterBody } rfl
      (by simp [statusTruthy, hne])]
  simp [close_state, initState]

lemma send_headers_ok_of_sends (cfg : Config) (env : Env) (statusB : Bytes)
    (headers : List (Bytes × Bytes))
    (hsend : cfg.origin_server = false ∨ client_is_modern env = Except.ok true) :
    ∃ pre, send_preamble cfg env statusB headers = Except.ok pre ∧
      send_headers_writes cfg env statusB headers =
        Except.ok (pre ++ headers.map headerLine ++ [CRLF]) := by
  by_cases ho : cfg.origin_server = true
  · have hm : client_is_modern env = Except.ok true := by
      rcases hsend with h | h
      · rw [ho] at h; exact absurd h (by simp)
      · exact h
    refine ⟨[bs "HTTP/" ++ cfg.http_version ++ bs " " ++ statusB ++ CRLF] ++
      (if has_header headers (bs "Date") then []
       else [bs "Date: " ++ cfg.dateBytes ++ CRLF]) ++
      (if cfg.server_software ≠ [] ∧ ¬ has_header headers (bs "Server") then
        [bs "Server: " ++ cfg.server_software ++ CRLF]
       else []), ?_, ?_⟩
    · simp [send_preamble, ho, hm]
    · simp [send_headers_writes, send_preamble, ho, hm]
  · refine ⟨[bs "Status: " ++ statusB ++ CRLF], ?_, ?_⟩
    · simp [send_preamble, ho]
    · simp [send_headers_writes, send_preamble, ho]

lemma finish_response_sends (cfg : Config) (env : Env) (result : Web3Result)
    (statusB : Bytes) (headers : List (Bytes × Bytes)) (chunks : List Bytes)
    (hv : valid_result result statusB headers chunks)
    (hsend : cfg.origin_server = false ∨ client_is_modern env = Except.ok true) :
    ∃ pre, send_preamble cfg env statusB headers = Except.ok pre ∧
      finish_response cfg env result initState =
        { err := none,
          st := { status := none, headersSent := false, bytesSent := 0,
                  writes := pre ++ headers.map headerLine ++ [CRLF] ++ chunks,
                  sentAfterBody := some (chunks.map List.length).sum } } := by
  obtain ⟨pre, hpre, hws⟩ := send_headers_ok_of_sends cfg env statusB headers hsend
  refine ⟨pre, hpre, ?_⟩
  rw [finish_response_ok_of_sendws cfg env result statusB headers chunks _ hv hws]

lemma finish_response_suppressed (cfg : Config) (env : Env)
    (result : Web3Result) (statusB : Bytes) (headers : List (Bytes × Bytes))
    (chunks : List Bytes) (p : Bytes)
    (hv : valid_result result statusB headers chunks)
    (ho : cfg.origin_server = true)
    (hp : envGet env "SERVER_PROTOCOL" = some (EnvVal.bytes p))
    (hu : upperB p = bs "HTTP/0.9") :
    finish_response cfg env result initState =
      { err := none,
        st := { status := none, headersSent := false, bytesSent := 0,
                writes := chunks,
                sentAfterBody := some (chunks.map List.length).sum } } := by
  have hm : client_is_modern env = Except.ok false := by
    simp [client_is_modern, getBytesStrict, hp, hu]
  have hws : send_headers_writes cfg env statusB headers = Except.ok [] := by
    simp [send_headers_writes, ho, hm]
  rw [finish_response_ok_of_sendws cfg env result statusB headers chunks [] hv hws]
  simp

lemma statusCheck_isSome_of_malformed (s : PyObj) (h : status_malformed s) :
    (statusCheck s).isSome = true := by
  rcases h with ⟨t, rfl⟩ | ⟨b, rfl, hcase⟩
  · simp [statusCheck]
  · simp only [statusCheck]
    by_cases hl : b.length < 4
    · simp [hl]
    · rcases hcase with h1 | h2 | h3 | h4
      · exact absurd h1 hl
      · simp [hl, h2]
      · simp [hl, h3]
      · cases hp : pyInt (b.take 3) with
        | none => simp [hl, hp]
        | some n =>
          by_cases hn : n = 0
          · simp [hl, hp, hn]
          · simp [hl, hp, hn, h4]

lemma envGet_envSet_same (e : Env) (k : String) (v : EnvVal) :
    envGet (envSet e k v) k = some v := by
  induction e with
  | nil => simp [envSet, envGet]
  | cons kv rest ih =>
    rcases kv with ⟨k', v'⟩
    by_cases h : k' = k
    · simp [envSet, envGet, h]
    · simp [envSet, envGet, h, ih]

lemma envGet_envSet_ne (e : Env) (k k' : String) (v : EnvVal) (h : k ≠ k') :
    envGet (envSet e k v) k' = envGet e k' := by
  induction e with
  | nil => simp [envSet, envGet, h]
  | cons kv rest ih =>
    rcases kv with ⟨k0, v0⟩
    by_cases h0 : k0 = k
    · subst h0
      simp [envSet, envGet, h]
    · simp [envSet, envGet, h0, ih]

lemma envGet_envSetdefault_ne (e : Env) (k k' : String) (v : EnvVal)
    (h : k ≠ k') :
    envGet (envSetdefault e k v) k' = envGet e k' := by
  unfold envSetdefault
  cases envGet e k with
  | some _ => rfl
  | none => exact envGet_envSet_ne e k k' v h

lemma guess_scheme_envSet_ne (e : Env) (k : String) (v : EnvVal)
    (h : k ≠ "HTTPS") :
    guess_scheme (envSet e k v) = guess_scheme e := by
  unfold guess_scheme
  rw [envGet_envSet_ne e k "HTTPS" v h]

lemma setup_environ_url_scheme (cfg : Config) (base : Env) :
    envGet (setup_environ cfg base).1 "web3.url_scheme" =
      some (EnvVal.bytes (guess_scheme (envUpdate cfg.os_environ base))) := by
  simp only [setup_environ]
  repeat' split
  all_goals
    simp [envGet_envSet_same, envGet_envSet_ne, envGet_envSetdefault_ne,
      guess_scheme_envSet_ne]

/-! ## Claim theorems -/

/-- C1: for every response whose header list contains a pair whose name is
a byte string that case-insensitively matches one of the hop-by-hop names,
`finish_response`'s validation fails with an error before `send_headers`
or `write` runs, so nothing at all is passed to the transport's `_write`. -/
theorem C1_hop_by_hop_rejected (cfg : Config) (env : Env) (result : Web3Result)
    (h : ∃ p ∈ result.headers, ∃ nb, p.1 = PyObj.bytes nb ∧
      is_hop_by_hop nb = true) :
    (finish_response cfg env result initState).err.isSome = true ∧
    (finish_response cfg env result initState).st.writes = [] ∧
    (finish_response cfg env result initState).st.headersSent = false := by
  have hval : (validate result).isSome = true := by
    by_cases hc : result.callable = true
    · simp [validate, hc]
    · rw [Bool.not_eq_true] at hc
      cases hs : statusCheck result.status with
      | some e => simp [validate, hc, hs]
      | none =>
        simp only [validate, hc, Bool.false_eq_true, ite_false, hs]
        exact headersCheck_isSome_of_hop result.headers h
  obtain ⟨e, he⟩ := Option.isSome_iff_exists.mp hval
  simp [finish_response, he, initState]

/-- C1 witness: the concrete response `rHop` carries a `b"Connection"`
header (mixed case) and is rejected with no transport writes. -/
theorem C1_witness :
    (finish_response cfg0 baseEnv0 rHop initState).err.isSome = true ∧
    (finish_response cfg0 baseEnv0 rHop initState).st.writes = [] ∧
    (finish_response cfg0 baseEnv0 rHop initState).st.headersSent = false :=
  C1_hop_by_hop_rejected cfg0 baseEnv0 rHop
    ⟨(PyObj.bytes (bs "Connection"), PyObj.bytes (bs "close")), by decide,
      bs "Connection", rfl, by decide⟩

/-- C5: for every response whose status is malformed — not byte data,
shorter than 4 bytes, first three characters not parsing to a non-zero
number, or fourth character not exactly one space — validation fails
before any transmission: no preamble, header or body bytes are written.
(The source additionally drops into `pdb.set_trace()` on the missing-space
branch before raising; the debugger writes nothing to the transport.) -/
theorem C5_malformed_status_rejected (cfg : Config) (env : Env)
    (result : Web3Result) (h : status_malformed result.status) :
    (finish_response cfg env result initState).err.isSome = true ∧
    (finish_response cfg env result initState).st.writes = [] ∧
    (finish_response cfg env result initState).st.headersSent = false := by
  have hval : (validate result).isSome = true := by
    by_cases hc : result.callable = true
    · simp [validate, hc]
    · rw [Bool.not_eq_true] at hc
      have hsc := statusCheck_isSome_of_malformed result.status h
      obtain ⟨e, he⟩ := Option.isSome_iff_exists.mp hsc
      simp [validate, hc, he]
  obtain ⟨e, he⟩ := Option.isSome_iff_exists.mp hval
  simp [finish_response, he, initState]

/-- C5 witness: the concrete status `b"abc"` (length 3) is rejected with
no transport writes. -/
theorem C5_witness :
    (finish_response cfg0 baseEnv0 rBadStatus initState).err.isSome = true ∧
    (finish_response cfg0 baseEnv0 rBadStatus initState).st.writes = [] ∧
    (finish_response cfg0 baseEnv0 rBadStatus initState).st.headersSent = false :=
  C5_malformed_status_rejected cfg0 baseEnv0 rBadStatus
    (Or.inr ⟨bs "abc", rfl, Or.inl (by decide)⟩)

/-- C4 (amended): for every valid response, and whenever headers are sent
at all (the handler is non-origin, or the client is modern — under an
origin server facing an HTTP/0.9 client the preamble, header lines and
blank line are all suppressed, see the counterexample), the transport
receives exactly: the preamble lines, one `name: value` CRLF line per
header in input order, a blank CRLF, then the body chunks in input order;
and right after the body is consumed `bytes_sent` equals the sum of the
chunk lengths. -/
theorem C4_transmission_shape (cfg : Config) (env : Env) (result : Web3Result)
    (statusB : Bytes) (headers : List (Bytes × Bytes)) (chunks : List Bytes)
    (hv : valid_result result statusB headers chunks)
    (hsend : cfg.origin_server = false ∨ client_is_modern env = Except.ok true) :
    ∃ pre, send_preamble cfg env statusB headers = Except.ok pre ∧
      (finish_response cfg env result initState).err = none ∧
      (finish_response cfg env result initState).st.writes =
        pre ++ headers.map headerLine ++ [CRLF] ++ chunks ∧
      (finish_response cfg env result initState).st.sentAfterBody =
        some (chunks.map List.length).sum := by
  obtain ⟨pre, hpre, hfr⟩ :=
    finish_response_sends cfg env result statusB headers chunks hv hsend
  exact ⟨pre, hpre, by rw [hfr], by rw [hfr], by rw [hfr]⟩

/-- C4 counterexample: under the origin-server configuration with an
HTTP/0.9 client, the valid response `r200` (one header, body `b"Hello"`)
is transmitted as the body chunk alone — no header line and no blank CRLF
chunk ever reaches the transport, contradicting the claim's unconditional
"one header line per header, then a blank CRLF". -/
theorem C4_counterexample :
    (finish_response cfg0 env09 r200 initState).err = none ∧
    (finish_response cfg0 env09 r200 initState).st.writes = [bs "Hello"] ∧
    CRLF ∉ (finish_response cfg0 env09 r200 initState).st.writes ∧
    headerLine (bs "Content-Length", bs "5") ∉
      (finish_response cfg0 env09 r200 initState).st.writes :=
  ⟨rfl, rfl, by decide, by decide⟩

/-- C4 witness: the amended theorem applied to `r200` under the default
origin configuration and a modern (HTTP/1.0) client. -/
theorem C4_witness :
    ∃ pre, send_preamble cfg0 baseEnv0 (bs "200 OK")
        [(bs "Content-Length", bs "5")] = Except.ok pre ∧
      (finish_response cfg0 baseEnv0 r200 initState).err = none ∧
      (finish_response cfg0 baseEnv0 r200 initState).st.writes =
        pre ++ [(bs "Content-Length", bs "5")].map headerLine ++ [CRLF] ++
          [bs "Hello"] ∧
      (finish_response cfg0 baseEnv0 r200 initState).st.sentAfterBody =
        some ([bs "Hello"].map List.length).sum :=
  C4_transmission_shape cfg0 baseEnv0 r200 (bs "200 OK")
    [(bs "Content-Length", bs "5")] [bs "Hello"] (by decide) (Or.inr rfl)

/-- C6: headers are sent exactly when the handler is non-origin or the
client is modern.  (a) A non-origin (CGI-style) handler's preamble is the
single line `Status: <status>` CRLF, followed by the header lines, the
blank CRLF, and the body.  (b) An origin server whose client declared
`HTTP/0.9` (compared case-insensitively via `.upper()`) writes no preamble
and no header bytes at all — only the body chunks reach the transport. -/
theorem C6_preamble_modes :
    (∀ (cfg : Config) (env : Env) (result : Web3Result) (statusB : Bytes)
        (headers : List (Bytes × Bytes)) (chunks : List Bytes),
      valid_result result statusB headers chunks →
      cfg.origin_server = false →
      (finish_response cfg env result initState).err = none ∧
      (finish_response cfg env result initState).st.writes =
        [bs "Status: " ++ statusB ++ CRLF] ++ headers.map headerLine ++
          [CRLF] ++ chunks) ∧
    (∀ (cfg : Config) (env : Env) (result : Web3Result) (statusB : Bytes)
        (headers : List (Bytes × Bytes)) (chunks : List Bytes) (p : Bytes),
      valid_result result statusB headers chunks →
      cfg.origin_server = true →
      envGet env "SERVER_PROTOCOL" = some (EnvVal.bytes p) →
      upperB p = bs "HTTP/0.9" →
      (finish_response cfg env result initState).err = none ∧
      (finish_response cfg env result initState).st.writes = chunks) := by
  constructor
  · intro cfg env result statusB headers chunks hv ho
    obtain ⟨pre, hpre, hfr⟩ :=
      finish_response_sends cfg env result statusB headers chunks hv (Or.inl ho)
    have hpre2 : pre = [bs "Status: " ++ statusB ++ CRLF] := by
      rw [send_preamble, if_neg (by simp [ho])] at hpre
      exact (Except.ok.injEq _ _).mp hpre.symm
    rw [hfr, hpre2]
    exact ⟨rfl, rfl⟩
  · intro cfg env result statusB headers chunks p hv ho hp hu
    rw [finish_response_suppressed cfg env result statusB headers chunks p
      hv ho hp hu]
    exact ⟨rfl, rfl⟩

/-- C6 witness: both modes at concrete inputs — the CGI-style handler
emits the `Status:` preamble even for a 0.9 client, and the origin
handler facing `b"http/0.9"` (lower case) emits only `b"Hello"`. -/
theorem C6_witness :
    ((finish_response cfgCgi env09 r200 initState).err = none ∧
     (finish_response cfgCgi env09 r200 initState).st.writes =
       [bs "Status: " ++ bs "200 OK" ++ CRLF] ++
         [(bs "Content-Length", bs "5")].map headerLine ++ [CRLF] ++
         [bs "Hello"]) ∧
    ((finish_response cfg0 env09 r200 initState).err = none ∧
     (finish_response cfg0 env09 r200 initState).st.writes = [bs "Hello"]) :=
  ⟨C6_preamble_modes.1 cfgCgi env09 r200 (bs "200 OK")
      [(bs "Content-Length", bs "5")] [bs "Hello"] (by decide) rfl,
   C6_preamble_modes.2 cfg0 env09 r200 (bs "200 OK")
      [(bs "Content-Length", bs "5")] [bs "Hello"] (bs "http/0.9")
      (by decide) rfl rfl (by decide)⟩

/-- C2 counterexample: with application `appBoom` the body iterable raises
`"boom"` after headers were sent (the pipeline's outcome records the
exception and `headers_sent = true`), the failure is logged — yet `run`
returns normally: `raised = none`, so the failure is *not* re-raised to
the caller, refuting the claim's "re-raises the failure" at this input. -/
theorem C2_counterexample :
    (pipeline_result cfg0 (setup_environ cfg0 baseEnv0).1
        (setup_environ cfg0 baseEnv0).2 appBoom).err = some "boom" ∧
    (pipeline_result cfg0 (setup_environ cfg0 baseEnv0).1
        (setup_environ cfg0 baseEnv0).2 appBoom).st.headersSent = true ∧
    (run cfg0 baseEnv0 appBoom).errlog =
      [ErrEvent.logged "boom" none, ErrEvent.flushed] ∧
    (run cfg0 baseEnv0 appBoom).raised = none :=
  ⟨rfl, rfl, rfl, rfl⟩

/-- C2 (amended): if an exception escapes the pipeline after
`headers_sent` has become true, the handler logs the failure to the error
stream and attempts no corrective transmission (the transport trace is
exactly the pipeline's own writes) — but the failure is swallowed rather
than re-raised: `run` returns normally (`raised = none`; a re-raise
happens only if the error handling itself raises). -/
theorem C2_post_header_failure (cfg : Config) (base : Env) (app : App)
    (e : String)
    (hfail : (pipeline_result cfg (setup_environ cfg base).1
      (setup_environ cfg base).2 app).err = some e)
    (hsent : (pipeline_result cfg (setup_environ cfg base).1
      (setup_environ cfg base).2 app).st.headersSent = true) :
    run cfg base app =
      { env := (setup_environ cfg base).1,
        writes := (pipeline_result cfg (setup_environ cfg base).1
          (setup_environ cfg base).2 app).st.writes,
        errlog := log_exception cfg e,
        raised := none } := by
  simp only [run]
  rw [hfail]
  simp [hsent]

/-- C2 witness: the amended theorem at the concrete `appBoom` input. -/
theorem C2_witness :
    run cfg0 baseEnv0 appBoom =
      { env := (setup_environ cfg0 baseEnv0).1,
        writes := (pipeline_result cfg0 (setup_environ cfg0 baseEnv0).1
          (setup_environ cfg0 baseEnv0).2 appBoom).st.writes,
        errlog := log_exception cfg0 "boom",
        raised := none } :=
  C2_post_header_failure cfg0 baseEnv0 appBoom "boom" rfl rfl

/-- C3: if the pipeline raises before headers are sent (its outcome is an
exception with the state still pristine — e.g. the application raised
before producing a response), then with the default fallback triple
configured and a header-transmitting mode (non-origin, or modern client),
`run` logs the exception and a flush to the error stream and transmits
the validated fallback: the preamble, the `Content-Type: text/plain`
header line, the blank CRLF and the fixed plain-text body, returning
normally. -/
theorem C3_error_fallback (cfg : Config) (base : Env) (app : App) (e : String)
    (hfail : pipeline_result cfg (setup_environ cfg base).1
        (setup_environ cfg base).2 app = { err := some e, st := initState })
    (hs : cfg.error_status = PyObj.bytes (bs "500 Dude, this is whack!"))
    (hh : cfg.error_headers =
      [(PyObj.bytes (bs "Content-Type"), PyObj.bytes (bs "text/plain"))])
    (hb : cfg.error_body =
      [Except.ok (bs "A server error occurred. Contact the administrator.")])
    (hsend : cfg.origin_server = false ∨
      client_is_modern (setup_environ cfg base).1 = Except.ok true) :
    ∃ pre, send_preamble cfg (setup_environ cfg base).1
        (bs "500 Dude, this is whack!")
        [(bs "Content-Type", bs "text/plain")] = Except.ok pre ∧
      run cfg base app =
        { env := (setup_environ cfg base).1,
          writes := pre ++ [headerLine (bs "Content-Type", bs "text/plain"),
            CRLF, bs "A server error occurred. Contact the administrator."],
          errlog := log_exception cfg e,
          raised := none } := by
  have hv : valid_result (error_result cfg) (bs "500 Dude, this is whack!")
      [(bs "Content-Type", bs "text/plain")]
      [bs "A server error occurred. Contact the administrator."] := by
    refine ⟨rfl, hs, by decide, ?_, by decide, ?_⟩
    · rw [show (error_result cfg).headers = cfg.error_headers from rfl, hh]
      rfl
    · rw [show (error_result cfg).body = cfg.error_body from rfl, hb]
      rfl
  obtain ⟨pre, hpre, hfr⟩ :=
    finish_response_sends cfg (setup_environ cfg base).1 (error_result cfg)
      (bs "500 Dude, this is whack!") [(bs "Content-Type", bs "text/plain")]
      [bs "A server error occurred. Contact the administrator."] hv hsend
  refine ⟨pre, hpre, ?_⟩
  simp only [run]
  rw [hfail]
  simp only [initState] at hfr ⊢
  rw [hfr]
  simp

/-- C3 witness: the theorem at the concrete always-raising application
under the default origin configuration with an HTTP/1.0 client. -/
theorem C3_witness :
    ∃ pre, send_preamble cfg0 (setup_environ cfg0 baseEnv0).1
        (bs "500 Dude, this is whack!")
        [(bs "Content-Type", bs "text/plain")] = Except.ok pre ∧
      run cfg0 baseEnv0 appRaise =
        { env := (setup_environ cfg0 baseEnv0).1,
          writes := pre ++ [headerLine (bs "Content-Type", bs "text/plain"),
            CRLF, bs "A server error occurred. Contact the administrator."],
          errlog := log_exception cfg0 "kaput",
          raised := none } :=
  C3_error_fallback cfg0 baseEnv0 appRaise "kaput" rfl rfl rfl rfl
    (Or.inr rfl)

/-- C7: starting from `PATH_INFO = b"/a/b/c"` and empty `SCRIPT_NAME`,
three successive `shift_path_info` calls return `b"a"`, `b"b"`, `b"c"`
while `SCRIPT_NAME` becomes `b"/a"`, `b"/a/b"`, `b"/a/b/c"`, and a fourth
call returns the no-segment result (`None`); from `PATH_INFO = b"/"` a
single call returns the empty byte string and `SCRIPT_NAME` gains a
trailing slash. -/
theorem C7_shift_path_info_chain :
    shift_path_info envShift0 = Except.ok (some (bs "a"), envShift1) ∧
    shift_path_info envShift1 = Except.ok (some (bs "b"), envShift2) ∧
    shift_path_info envShift2 = Except.ok (some (bs "c"), envShift3) ∧
    shift_path_info envShift3 = Except.ok (none, envShift3) ∧
    shift_path_info envSlash =
      Except.ok (some (bs ""),
        [("PATH_INFO", EnvVal.bytes (bs "")),
         ("SCRIPT_NAME", EnvVal.bytes (bs "/"))]) :=
  ⟨rfl, rfl, rfl, rfl, rfl⟩

/-- C8: the Environment Builder stores the scheme under `'web3.url_scheme'`
but `application_uri` reads `'wsgi.url_scheme'`, so on the environment the
builder produces (empty `SCRIPT_NAME`, `HTTP_HOST = b"example.com"`, http
scheme) base-URI reconstruction raises `KeyError` instead of returning
`b"http://example.com/"`.  The third conjunct shows the claimed result is
produced as soon as the scheme is made available under the key the code
reads, isolating the key-name slip as the sole failure. -/
theorem C8_wsgi_key_slip :
    envGet builtEnv0 "web3.url_scheme" = some (EnvVal.bytes (bs "http")) ∧
    application_uri builtEnv0 = Except.error "KeyError: wsgi.url_scheme" ∧
    application_uri
        (envSet builtEnv0 "wsgi.url_scheme" (EnvVal.bytes (bs "http"))) =
      Except.ok (bs "http://example.com/") :=
  ⟨rfl, rfl, rfl⟩

/-- C9 (amended): the scheme the Environment Builder stores under
`'web3.url_scheme'` is `b"https"` exactly when the merged transport
environment maps `HTTPS` to one of `b'yes'`, `b'on'`, `b'1'` — not for
every present-and-truthy value — and `b"http"` otherwise. -/
theorem C9_scheme_guess (cfg : Config) (base : Env) :
    envGet (setup_environ cfg base).1 "web3.url_scheme" =
      some (EnvVal.bytes
        (if envGet (envUpdate cfg.os_environ base) "HTTPS" ∈
            [some (EnvVal.bytes (bs "yes")), some (EnvVal.bytes (bs "on")),
             some (EnvVal.bytes (bs "1"))] then bs "https" else bs "http")) := by
  rw [setup_environ_url_scheme cfg base]
  rfl

/-- C9 counterexample: `HTTPS = b"ON"` is present and truthy, yet the
builder stores `b"http"`, refuting "https exactly when present and
truthy". -/
theorem C9_counterexample :
    envGet baseEnvHttpsOn "HTTPS" = some (EnvVal.bytes (bs "ON")) ∧
    (EnvVal.bytes (bs "ON")).truthy = true ∧
    envGet (setup_environ cfg0 baseEnvHttpsOn).1 "web3.url_scheme" =
      some (EnvVal.bytes (bs "http")) ∧
    bs "http" ≠ bs "https" :=
  ⟨rfl, rfl, rfl, by decide⟩

/-- C10: the default fallback triple returned by `error_output` — status
`b"500 Dude, this is whack!"`, headers `[(b'Content-Type', b'text/plain')]`
and the fixed one-chunk plain-text body — passes every Response Validator
check (not callable, bytes status with a non-zero three-digit code and a
space, byte header pairs, no hop-by-hop name), so no validation error
branch is reachable when `handle_error` re-runs `finish_response` on it. -/
theorem C10_default_fallback_valid :
    validate (error_result ({} : Config)) = none ∧
    (error_result ({} : Config)).callable = false :=
  ⟨rfl, rfl⟩
